import Mathlib

/-!
Verification development for the conversation repository
(`backend/app/repositories/conversation.py`).

The repository stores conversations (trees of messages) and per-bot usage
markers in one DynamoDB table.  We give a shallow embedding:

* the DynamoDB table is a list of items, an item is an association list from
  attribute names to attribute values;
* numeric timestamps (Python `float` / DynamoDB `Decimal`) are modelled as
  rationals; `decimal(x)` on write and `float(x)` on read are exact on the
  values this module writes, so both are the identity in the model;
* the serialized `MessageMap` (a JSON string produced by
  `json.dumps({k: v.model_dump() ...})`) is modelled structurally as the
  ordered association list it encodes: `json.dumps`/`json.loads` are
  injective and order-preserving on these values, and Python dicts preserve
  insertion order, so `dict.popitem()` is "last entry";
* Python exceptions (`KeyError`, `IndexError`, `RecordNotFoundError`, a
  cancelled DynamoDB transaction) are modelled with `Except`;
* a paged DynamoDB query is modelled by an explicit paging plan (the list of
  page sizes the store happens to use, driven in reality by the 1MB response
  limit); `LastEvaluatedKey` is present exactly when items remain after a
  page, and `ProjectionExpression` restricts the attributes of returned
  items.
-/

namespace ConvRepo

/-- `ContentModel` from `app.repositories.model`: `{content_type, body}`. -/
structure ContentModel where
  content_type : String
  body : String
deriving DecidableEq, Repr

/-- `MessageModel` from `app.repositories.model`: one node of the message
tree.  Also used as the structural image of its JSON serialization
(`model_dump` / `json.dumps` round-trip is modelled as the identity). -/
structure MessageModel where
  role : String
  content : ContentModel
  model : String
  children : List String
  parent : Option String
  create_time : ℚ
deriving DecidableEq, Repr

/-- `ConversationModel` from `app.repositories.model`.  `message_map` is an
ordered association list mirroring a Python dict (insertion order kept). -/
structure ConversationModel where
  id : String
  create_time : ℚ
  title : String
  message_map : List (String × MessageModel)
  last_message_id : String
  bot_id : Option String
deriving DecidableEq, Repr

/-- `ConversationMetaModel` from `app.repositories.model`: the summary
returned by the user-scoped listing. -/
structure ConversationMetaModel where
  id : String
  create_time : ℚ
  title : String
  model : String
  bot_id : Option String
deriving DecidableEq, Repr

/-- A DynamoDB attribute value, restricted to the shapes this module writes:
strings, numbers (as rationals), the serialized message map, and NULL
(Python `None`, as stored for an absent `BotId`). -/
inductive AttrVal where
  | aS (v : String)
  | aN (v : ℚ)
  | aM (v : List (String × MessageModel))
  | aNull
deriving DecidableEq, Repr

/-- A stored item: attribute name to attribute value, unique names. -/
abbrev Item := List (String × AttrVal)

/-- The single table, as the list of its items. -/
abbrev TableState := List Item

/-- Python-level errors surfaced by the repository functions. -/
inductive PyErr where
  | recordNotFound (msg : String)
  | keyError (key : String)
  | indexError
  | malformedKey (sk : String)
  | typeError (key : String)
  | transactionCanceled
deriving DecidableEq, Repr

/-- Attribute lookup (`item["K"]`); `none` models a `KeyError` site. -/
def getAttr : Item → String → Option AttrVal
  | [], _ => none
  | kv :: rest, k => if kv.1 == k then some kv.2 else getAttr rest k

/-- Attribute assignment: replace the binding if present, else append. -/
def setAttr : Item → String → AttrVal → Item
  | [], k, v => [(k, v)]
  | kv :: rest, k, v => if kv.1 == k then (k, v) :: rest else kv :: setAttr rest k v

/-- Modelled from the spec (the helper `_compose_conv_id` lives in
`app.repositories.common`, which is not part of the provided source):
`composeConversationKey(userId, conversationId)` produces
`"<userId>#CONV#<conversationId>"` (spec section 4.1). -/
def _compose_conv_id (user_id conversation_id : String) : String :=
  user_id ++ "#CONV#" ++ conversation_id

/-- Modelled from the spec (the helper `_compose_bot_id` lives in
`app.repositories.common`, which is not part of the provided source):
`composeBotKey(userId, botId)` produces `"<userId>#BOT#<botId>"`
(spec section 4.1). -/
def _compose_bot_id (user_id bot_id : String) : String :=
  user_id ++ "#BOT#" ++ bot_id

/-- Split a list at the first occurrence of `sep`, returning the parts
before and after it. -/
def findSepSplit (sep : List Char) : List Char → Option (List Char × List Char)
  | [] => none
  | c :: rest =>
    if List.isPrefixOf sep (c :: rest) then some ([], (c :: rest).drop sep.length)
    else
      match findSepSplit sep rest with
      | some (pre, post) => some (c :: pre, post)
      | none => none

/-- Modelled from the spec (the helper `_decompose_conv_id` lives in
`app.repositories.common`, which is not part of the provided source):
`decomposeConversationKey(SK)` strips the `"<userId>#CONV#"` part of the
sort key and returns the conversation id; it fails with `MalformedKeyError`
when the SK does not match the composite pattern (spec section 4.1). -/
def _decompose_conv_id (sk : String) : Except PyErr String :=
  match findSepSplit "#CONV#".data sk.data with
  | some (_, post) => Except.ok (String.mk post)
  | none => Except.error (PyErr.malformedKey sk)

/-- Read a string attribute (`item["K"]` expected to be a string). -/
def readS (item : Item) (k : String) : Except PyErr String :=
  match getAttr item k with
  | some (AttrVal.aS s) => Except.ok s
  | some _ => Except.error (PyErr.typeError k)
  | none => Except.error (PyErr.keyError k)

/-- Read a numeric attribute and convert (`float(item["K"])`). -/
def readN (item : Item) (k : String) : Except PyErr ℚ :=
  match getAttr item k with
  | some (AttrVal.aN q) => Except.ok q
  | some _ => Except.error (PyErr.typeError k)
  | none => Except.error (PyErr.keyError k)

/-- Read and deserialize the message map (`json.loads(item["K"])`). -/
def readMM (item : Item) (k : String) : Except PyErr (List (String × MessageModel)) :=
  match getAttr item k with
  | some (AttrVal.aM m) => Except.ok m
  | some _ => Except.error (PyErr.typeError k)
  | none => Except.error (PyErr.keyError k)

/-- Interpret an attribute value as `Optional[str]`. -/
def optSOfVal (k : String) : AttrVal → Except PyErr (Option String)
  | AttrVal.aS s => Except.ok (some s)
  | AttrVal.aNull => Except.ok none
  | _ => Except.error (PyErr.typeError k)

/-- Read an optional-string attribute (`item["K"]`, a string or `None`). -/
def readOptS (item : Item) (k : String) : Except PyErr (Option String) :=
  match getAttr item k with
  | some v => optSOfVal k v
  | none => Except.error (PyErr.keyError k)

/-- The per-message reconstruction in `find_conversation_by_id`
(lines 211-221): rebuild a `MessageModel` from the deserialized dict. -/
def parseMessage (v : MessageModel) : MessageModel :=
  { role := v.role
    content := { content_type := v.content.content_type, body := v.content.body }
    model := v.model
    children := v.children
    parent := v.parent
    create_time := v.create_time }

/-- Decoding of a full item into a `ConversationModel`, mirroring the body
of `find_conversation_by_id` (lines 206-226).  The Python keyword arguments
are evaluated left to right: `id` (sort-key decomposition), `create_time`,
`title`, `message_map`, `last_message_id`, `bot_id`. -/
def decodeConversation (item : Item) : Except PyErr ConversationModel := do
  let sk ← readS item "SK"
  let cid ← _decompose_conv_id sk
  let ct ← readN item "CreateTime"
  let title ← readS item "Title"
  let mm ← readMM item "MessageMap"
  let lastId ← readS item "LastMessageId"
  let botId ← readOptS item "BotId"
  return { id := cid
           create_time := ct
           title := title
           message_map := mm.map (fun kv => (kv.1, parseMessage kv.2))
           last_message_id := lastId
           bot_id := botId }

/-- One element of a `TransactItems` list: a `Put` (full item replace) or an
`Update` (here always `"set LastBotUsed = :current_time"`, keyed by
`(PK, SK)`, with the bound value). -/
inductive TransactOp where
  | put (item : Item)
  | update (pk sk : String) (update_expression : String) (value : ℚ)
deriving DecidableEq, Repr

/-- One request issued to the DynamoDB client. -/
inductive StoreCall where
  | transact (ops : List TransactOp)
deriving DecidableEq, Repr

/-- Does `item` have primary key `(pk, sk)`? -/
def isKeyB (item : Item) (pk sk : String) : Bool :=
  decide (getAttr item "PK" = some (AttrVal.aS pk))
    && decide (getAttr item "SK" = some (AttrVal.aS sk))

/-- DynamoDB `Put`: full replace of the item with the same primary key. -/
def putItem (st : TableState) (item : Item) : TableState :=
  st.filter (fun old =>
    !(decide (getAttr old "PK" = getAttr item "PK")
        && decide (getAttr old "SK" = getAttr item "SK"))) ++ [item]

/-- DynamoDB `UpdateItem` with a single `SET` clause: upsert semantics —
update the attribute on the keyed item, or create the item if absent. -/
def update_attr (st : TableState) (pk sk attr : String) (v : AttrVal) : TableState :=
  if st.any (fun it => isKeyB it pk sk) then
    st.map (fun it => if isKeyB it pk sk then setAttr it attr v else it)
  else
    st ++ [[("PK", AttrVal.aS pk), ("SK", AttrVal.aS sk), (attr, v)]]

/-- DynamoDB `DeleteItem`: remove the item with the given primary key
(idempotent, no error when absent). -/
def delete_item (st : TableState) (pk sk : String) : TableState :=
  st.filter (fun it => !(isKeyB it pk sk))

/-- Apply one sub-operation of a transaction to the table. -/
def applyTransactOp (st : TableState) : TransactOp → TableState
  | TransactOp.put item => putItem st item
  | TransactOp.update pk sk _ v => update_attr st pk sk "LastBotUsed" (AttrVal.aN v)

/-- The store's atomic multi-item write primitive
(`client.transact_write_items`): all sub-operations commit, or — when the
store reports a failure of any sub-operation (condition check, capacity,
conflict), modelled by the `fails` oracle — none does and the whole request
is rejected. -/
def transact_write_items (fails : TransactOp → Bool) (st : TableState)
    (ops : List TransactOp) : Except PyErr TableState :=
  if ops.any fails then Except.error PyErr.transactionCanceled
  else Except.ok (ops.foldl applyTransactOp st)

/-- Run a sequence of store calls; a failing call raises, leaving the state
produced by the calls before it. -/
def runCalls (fails : TransactOp → Bool) : TableState → List StoreCall → TableState × Option PyErr
  | st, [] => (st, none)
  | st, StoreCall.transact ops :: rest =>
    match transact_write_items fails st ops with
    | Except.ok st2 => runCalls fails st2 rest
    | Except.error e => (st, some e)

/-- Python truthiness of an `Optional[str]` (`if conversation.bot_id:`):
false for `None` and for the empty string. -/
def pyTruthyOptStr : Option String → Bool
  | none => false
  | some s => !s.isEmpty

/-- `None` becomes a DynamoDB NULL, a string stays a string. -/
def encodeBotId : Option String → AttrVal
  | none => AttrVal.aNull
  | some s => AttrVal.aS s

/-- The `Put` item built by `store_conversation` (lines 101-111). -/
def conv_put_item (user_id : String) (c : ConversationModel) : Item :=
  [("PK", AttrVal.aS user_id),
   ("SK", AttrVal.aS (_compose_conv_id user_id c.id)),
   ("Title", AttrVal.aS c.title),
   ("CreateTime", AttrVal.aN c.create_time),
   ("MessageMap", AttrVal.aM c.message_map),
   ("LastMessageId", AttrVal.aS c.last_message_id),
   ("BotId", encodeBotId c.bot_id)]

/-- The `TransactItems` list built by `store_conversation` (lines 97-131):
the conversation `Put`, then — only when `conversation.bot_id` is truthy —
the `LastBotUsed` `Update` keyed by the bot-usage key.  `now` is
`datetime.now().timestamp()`. -/
def store_conversation_items (now : ℚ) (user_id : String) (c : ConversationModel) :
    List TransactOp :=
  match c.bot_id with
  | some bot_id =>
    if bot_id.isEmpty then [TransactOp.put (conv_put_item user_id c)]
    else
      [TransactOp.put (conv_put_item user_id c),
       TransactOp.update user_id (_compose_bot_id user_id bot_id)
         "set LastBotUsed = :current_time" now]
  | none => [TransactOp.put (conv_put_item user_id c)]

/-- The store calls issued by `store_conversation`: exactly one
`transact_write_items` request (line 133). -/
def store_conversation_calls (now : ℚ) (user_id : String) (c : ConversationModel) :
    List StoreCall :=
  [StoreCall.transact (store_conversation_items now user_id c)]

/-- `store_conversation(user_id, conversation)` run against a table state:
issue the calls and return the resulting state together with the error, if
the store reported one. -/
def store_conversation (fails : TransactOp → Bool) (now : ℚ) (st : TableState)
    (user_id : String) (c : ConversationModel) : TableState × Option PyErr :=
  runCalls fails st (store_conversation_calls now user_id c)

/-- Query of the `SKIndex` secondary index with `Key("SK").eq(sk)`: all
items of the table whose sort key equals `sk` (across partitions). -/
def skIndexQuery (st : TableState) (sk : String) : List Item :=
  st.filter (fun it => decide (getAttr it "SK" = some (AttrVal.aS sk)))

/-- `find_conversation_by_id(user_id, conversation_id)` (lines 194-228):
query the `SKIndex`, raise `RecordNotFoundError` on zero items, otherwise
decode `Items[0]`. -/
def find_conversation_by_id (st : TableState) (user_id conversation_id : String) :
    Except PyErr ConversationModel :=
  match (skIndexQuery st (_compose_conv_id user_id conversation_id)).head? with
  | none =>
    Except.error (PyErr.recordNotFound ("No conversation found with id: " ++ conversation_id))
  | some item => decodeConversation item

/-- `delete_conversation_by_id(user_id, conversation_id)` (lines 231-251):
resolve via the `SKIndex`, take the item's own `PK`, delete by the
recomposed primary key; `RecordNotFoundError` when nothing matches. -/
def delete_conversation_by_id (st : TableState) (user_id conversation_id : String) :
    Except PyErr TableState :=
  match (skIndexQuery st (_compose_conv_id user_id conversation_id)).head? with
  | some item => do
    let pk ← readS item "PK"
    return delete_item st pk (_compose_conv_id pk conversation_id)
  | none =>
    Except.error (PyErr.recordNotFound ("No conversation found with id: " ++ conversation_id))

/-- `change_conversation_title(user_id, conversation_id, new_title)`
(lines 274-305): resolve via the `SKIndex`, then `update_item` setting only
`Title`, keyed by the item's `PK` and the recomposed sort key;
`RecordNotFoundError` when nothing matches (message without a colon, as in
line 287). -/
def change_conversation_title (st : TableState) (user_id conversation_id new_title : String) :
    Except PyErr TableState :=
  match (skIndexQuery st (_compose_conv_id user_id conversation_id)).head? with
  | none =>
    Except.error (PyErr.recordNotFound ("No conversation found with id " ++ conversation_id))
  | some item => do
    let pk ← readS item "PK"
    return update_attr st pk (_compose_conv_id pk conversation_id) "Title" (AttrVal.aS new_title)

/-- Does the item's `PK` equal `u`? (`Key("PK").eq(user_id)`). -/
def pkEquals (it : Item) (u : String) : Bool :=
  decide (getAttr it "PK" = some (AttrVal.aS u))

/-- Does the item's `SK` start with `pre`?
(`Key("SK").begins_with(f"{user_id}#CONV#")`). -/
def skBeginsWith (it : Item) (pre : String) : Bool :=
  match getAttr it "SK" with
  | some (AttrVal.aS s) => List.isPrefixOf pre.data s.data
  | _ => false

/-- The item's sort key as a string (empty when absent/non-string). -/
def skStr (it : Item) : String :=
  match getAttr it "SK" with
  | some (AttrVal.aS s) => s
  | _ => ""

/-- Lexicographic comparison of char lists by code point. -/
def charListLe : List Char → List Char → Bool
  | [], _ => true
  | _ :: _, [] => false
  | a :: as, b :: bs =>
    if a.toNat < b.toNat then true
    else if b.toNat < a.toNat then false
    else charListLe as bs

/-- Lexicographic string order (the store's sort-key order). -/
def strLe (a b : String) : Bool :=
  charListLe a.data b.data

/-- Insert into a list kept in descending sort-key order. -/
def insertDesc (it : Item) : List Item → List Item
  | [] => [it]
  | x :: xs => if strLe (skStr x) (skStr it) then it :: x :: xs else x :: insertDesc it xs

/-- Sort items by sort key, descending (`ScanIndexForward=False`). -/
def sortDescBySK (l : List Item) : List Item :=
  l.foldr insertDesc []

/-- The full (unpaged) result of the listing's query: items with
`PK == user_id` and `SK` starting with `"<user_id>#CONV#"`, in descending
sort-key order. -/
def convQueryFull (st : TableState) (user_id : String) : List Item :=
  sortDescBySK (st.filter (fun it =>
    pkEquals it user_id && skBeginsWith it (user_id ++ "#CONV#")))

/-- Cut the query result into the store's response pages.  `plan` gives the
page sizes the store happens to use (clamped to at least one item); when the
plan runs out the remaining items form the final page.  A page is followed
by a `LastEvaluatedKey` exactly when items remain after it. -/
def chunkBy : List Nat → List Item → List (List Item)
  | _, [] => []
  | [], rest => [rest]
  | n :: ns, rest => rest.take (max n 1) :: chunkBy ns (rest.drop (max n 1))

/-- `ProjectionExpression`: keep only the named attributes of an item. -/
def project (keys : List String) (it : Item) : Item :=
  it.filter (fun kv => keys.contains kv.1)

/-- Run an action over a list, stopping at the first raised error — the
semantics of a Python list comprehension whose element expression can
raise. -/
def mapExcept (f : α → Except PyErr β) : List α → Except PyErr (List β)
  | [] => Except.ok []
  | a :: l => do
    let b ← f a
    let bs ← mapExcept f l
    return b :: bs

/-- `MAX_QUERY_COUNT` (line 160). -/
def MAX_QUERY_COUNT : Nat := 5

/-- `popitem()` on the deserialized message map: the last-inserted entry,
`KeyError` on an empty dict. -/
def popitemLast (m : List (String × MessageModel)) :
    Except PyErr (String × MessageModel) :=
  match m.getLast? with
  | some kv => Except.ok kv
  | none => Except.error (PyErr.keyError "popitem(): dictionary is empty")

/-- Decoding of a first-page (full projection) item into a summary
(lines 147-157).  Keyword arguments evaluate left to right: `id`
(decomposition of `item["SK"]`), `create_time`, `title`, `model`
(`json.loads(item["MessageMap"]).popitem()[1]["model"]`), `bot_id`
(`item["BotId"]`). -/
def decodeMetaFull (item : Item) : Except PyErr ConversationMetaModel := do
  let sk ← readS item "SK"
  let cid ← _decompose_conv_id sk
  let ct ← readN item "CreateTime"
  let title ← readS item "Title"
  let mm ← readMM item "MessageMap"
  let lastEntry ← popitemLast mm
  let botId ← readOptS item "BotId"
  return { id := cid, create_time := ct, title := title,
           model := lastEntry.2.model, bot_id := botId }

/-- Decoding of a continuation-page item into a summary (lines 173-184):
the `model` field is the precomputed `model` variable, every other field is
read from the item — including `item["BotId"]`, although the continuation
query projected the item down to `SK, CreateTime, Title`. -/
def decodeMetaProj (model : String) (item : Item) : Except PyErr ConversationMetaModel := do
  let sk ← readS item "SK"
  let cid ← _decompose_conv_id sk
  let ct ← readN item "CreateTime"
  let title ← readS item "Title"
  let botId ← readOptS item "BotId"
  return { id := cid, create_time := ct, title := title,
           model := model, bot_id := botId }

/-- The `while "LastEvaluatedKey" in response` loop of
`find_conversation_by_user_id` (lines 161-188).  `prevItems` is the current
response's `Items`; `remaining` the pages still held by the store (nonempty
exactly when the current response carries a `LastEvaluatedKey`).  Each
iteration recomputes `model` from the current response's first item, fetches
the next page with the reduced projection `SK, CreateTime, Title`, decodes
it, and stops with a warning (the returned flag) once the query count
exceeds `MAX_QUERY_COUNT`. -/
def listLoop (prevItems : List Item) (remaining : List (List Item))
    (query_count : Nat) (acc : List ConversationMetaModel) :
    Except PyErr (List ConversationMetaModel × Bool) :=
  match remaining with
  | [] => Except.ok (acc, false)
  | page :: rest => do
    let firstItem ← match prevItems.head? with
      | some it => Except.ok it
      | none => Except.error PyErr.indexError
    let mm ← readMM firstItem "MessageMap"
    let lastEntry ← popitemLast mm
    let model := lastEntry.2.model
    let projPage := page.map (project ["SK", "CreateTime", "Title"])
    let decoded ← mapExcept (decodeMetaProj model) projPage
    let acc2 := acc ++ decoded
    let qc := query_count + 1
    if qc > MAX_QUERY_COUNT then Except.ok (acc2, true)
    else listLoop projPage rest qc acc2

/-- `find_conversation_by_user_id(user_id)` (lines 137-191) against a table
state, with the store's paging given by `plan`.  Returns the summaries
together with whether the truncation warning was logged. -/
def find_conversation_by_user_id (plan : List Nat) (st : TableState) (user_id : String) :
    Except PyErr (List ConversationMetaModel × Bool) := do
  let pgs := chunkBy plan (convQueryFull st user_id)
  let page0 := pgs.headD []
  let conversations ← mapExcept decodeMetaFull page0
  listLoop page0 pgs.tail 1 conversations

/-- `delete_conversation_by_user_id(user_id)` (lines 254-271): list via the
capped listing, then delete each found conversation individually (one
sequential `delete_item` per summary, no grouping); `RecordNotFoundError`
when the listing came back empty. -/
def delete_conversation_by_user_id (plan : List Nat) (st : TableState) (user_id : String) :
    Except PyErr TableState := do
  let found ← find_conversation_by_user_id plan st user_id
  let conversations := found.1
  if conversations.isEmpty then
    Except.error (PyErr.recordNotFound ("No conversations found for user id: " ++ user_id))
  else
    return conversations.foldl
      (fun s conv => delete_item s user_id (_compose_conv_id user_id conv.id)) st

deriving instance DecidableEq for Except

/-! Concrete data used to instantiate the theorems below. -/

/-- A demo message node. -/
def demoMsg (p : Option String) (cs : List String) : MessageModel :=
  { role := "user"
    content := { content_type := "text", body := "hello" }
    model := "claude-v2"
    children := cs
    parent := p
    create_time := 1 }

/-- A three-message tree: root, child, grandchild. -/
def demoTree : List (String × MessageModel) :=
  [("root", demoMsg none ["child"]),
   ("child", demoMsg (some "root") ["grand"]),
   ("grand", demoMsg (some "child") [])]

/-- A demo conversation without a bot. -/
def demoConv : ConversationModel :=
  { id := "c1"
    create_time := 2
    title := "first title"
    message_map := demoTree
    last_message_id := "grand"
    bot_id := none }

/-- A demo conversation with a bot. -/
def demoConvBot : ConversationModel :=
  { demoConv with bot_id := some "b1" }

/-- A small single-message conversation for user `u1`, id `i`. -/
def smallConv (i : String) (ct : ℚ) : ConversationModel :=
  { id := i
    create_time := ct
    title := "t" ++ i
    message_map := [("m0", demoMsg none [])]
    last_message_id := "m0"
    bot_id := none }

/-- Six stored conversations of user `u1` — enough for six store pages. -/
def demoSt6 : TableState :=
  [conv_put_item "u1" (smallConv "c1" 1),
   conv_put_item "u1" (smallConv "c2" 2),
   conv_put_item "u1" (smallConv "c3" 3),
   conv_put_item "u1" (smallConv "c4" 4),
   conv_put_item "u1" (smallConv "c5" 5),
   conv_put_item "u1" (smallConv "c6" 6)]

/-- A stored conversation whose serialized message map is the empty dict. -/
def demoEmptyMMItem : Item :=
  conv_put_item "u1"
    { id := "c0", create_time := 1, title := "empty", message_map := [],
      last_message_id := "", bot_id := none }

/-- A store holding one conversation whose serialized message map is the
empty dict. -/
def demoStEmptyMM : TableState :=
  [demoEmptyMMItem]

/-- A minimal stored item carrying only the primary key. -/
def demoBareItem : Item :=
  [("PK", AttrVal.aS "u1"), ("SK", AttrVal.aS (_compose_conv_id "u1" "c1"))]

/-- A store holding just `demoBareItem`. -/
def demoStOne : TableState :=
  [demoBareItem]

/-- A store holding the demo conversation, fully attributed. -/
def demoStConv : TableState :=
  [conv_put_item "u1" demoConv]

/-- An unrelated item of another user. -/
def demoOtherItem : Item :=
  [("PK", AttrVal.aS "other"), ("SK", AttrVal.aS (_compose_conv_id "other" "z")),
   ("Title", AttrVal.aS "zz"), ("CreateTime", AttrVal.aN 9),
   ("MessageMap", AttrVal.aM [("m", demoMsg none [])]),
   ("LastMessageId", AttrVal.aS "m"), ("BotId", AttrVal.aNull)]

/-- A store with one unrelated item. -/
def demoSt0 : TableState :=
  [demoOtherItem]

/-- A failure oracle under which every `Update` sub-operation fails and
every `Put` succeeds — the store rejecting the bot-usage half of the
transaction. -/
def demoFailUpdate : TransactOp → Bool
  | TransactOp.update _ _ _ _ => true
  | _ => false

/-! Helper lemmas. -/

theorem bind_ok {α β : Type} (a : α) (f : α → Except PyErr β) :
    (Except.ok a >>= f) = f a := rfl

theorem bind_err {α β : Type} (e : PyErr) (f : α → Except PyErr β) :
    ((Except.error e : Except PyErr α) >>= f) = Except.error e := rfl

theorem getAttr_setAttr_self (it : Item) (k : String) (v : AttrVal) :
    getAttr (setAttr it k v) k = some v := by
  induction it with
  | nil => simp [setAttr, getAttr]
  | cons kv rest ih =>
    cases hkv : kv.1 == k
    · simp [setAttr, getAttr, hkv, ih]
    · simp [setAttr, getAttr, hkv]

theorem getAttr_setAttr_ne (it : Item) (k k2 : String) (v : AttrVal) (h : k2 ≠ k) :
    getAttr (setAttr it k v) k2 = getAttr it k2 := by
  induction it with
  | nil => simp [setAttr, getAttr, Ne.symm h]
  | cons kv rest ih =>
    cases hkv : kv.1 == k
    · simp only [setAttr, hkv, Bool.false_eq_true, if_false, getAttr, ih]
    · have hk1 : kv.1 = k := by simpa using hkv
      simp [setAttr, getAttr, hkv, hk1, Ne.symm h]

theorem readS_setAttr_ne (it : Item) (k k2 : String) (v : AttrVal) (h : k2 ≠ k) :
    readS (setAttr it k v) k2 = readS it k2 := by
  simp [readS, getAttr_setAttr_ne it k k2 v h]

theorem readN_setAttr_ne (it : Item) (k k2 : String) (v : AttrVal) (h : k2 ≠ k) :
    readN (setAttr it k v) k2 = readN it k2 := by
  simp [readN, getAttr_setAttr_ne it k k2 v h]

theorem readMM_setAttr_ne (it : Item) (k k2 : String) (v : AttrVal) (h : k2 ≠ k) :
    readMM (setAttr it k v) k2 = readMM it k2 := by
  simp [readMM, getAttr_setAttr_ne it k k2 v h]

theorem readOptS_setAttr_ne (it : Item) (k k2 : String) (v : AttrVal) (h : k2 ≠ k) :
    readOptS (setAttr it k v) k2 = readOptS it k2 := by
  simp [readOptS, getAttr_setAttr_ne it k k2 v h]

theorem filter_map_pred_inv {α : Type} (g : α → α) (p : α → Bool)
    (h : ∀ x, p (g x) = p x) (l : List α) :
    (l.map g).filter p = (l.filter p).map g := by
  induction l with
  | nil => rfl
  | cons a t ih =>
    cases hp : p a
    · simp [List.filter_cons, h, hp, ih]
    · simp [List.filter_cons, h, hp, ih]

theorem mapExcept_error_of_mem {α β : Type} (f : α → Except PyErr β) (l : List α) (x : α)
    (hx : x ∈ l) (he : ∃ e, f x = Except.error e) :
    ∃ e, mapExcept f l = Except.error e := by
  induction l with
  | nil => cases hx
  | cons a t ih =>
    cases hx with
    | head =>
      obtain ⟨e, he⟩ := he
      exact ⟨e, by simp only [mapExcept, he]; rfl⟩
    | tail _ hmem =>
      cases hf : f a with
      | error e => exact ⟨e, by simp only [mapExcept, hf]; rfl⟩
      | ok b =>
        obtain ⟨e, htail⟩ := ih hmem
        exact ⟨e, by simp only [mapExcept, hf, htail]; rfl⟩

theorem parse_map_id (m : List (String × MessageModel)) :
    m.map (fun kv => (kv.1, parseMessage kv.2)) = m := by
  induction m with
  | nil => rfl
  | cons a t ih => simp [ih, parseMessage]

theorem optSOfVal_encodeBotId (k : String) (b : Option String) :
    optSOfVal k (encodeBotId b) = Except.ok b := by
  cases b <;> rfl

theorem skIndexQuery_putItem_fresh (st : TableState) (item : Item) (key : String)
    (hit : getAttr item "SK" = some (AttrVal.aS key))
    (hfresh : ∀ jt ∈ st, getAttr jt "SK" ≠ some (AttrVal.aS key)) :
    skIndexQuery (putItem st item) key = [item] := by
  unfold skIndexQuery putItem
  rw [List.filter_append]
  have h1 : (st.filter (fun old =>
      !(decide (getAttr old "PK" = getAttr item "PK")
          && decide (getAttr old "SK" = getAttr item "SK")))).filter
        (fun it => decide (getAttr it "SK" = some (AttrVal.aS key))) = [] := by
    apply List.filter_eq_nil_iff.2
    intro a ha
    have hmem : a ∈ st := (List.mem_filter.1 ha).1
    simpa using hfresh a hmem
  rw [h1]
  simp [hit]

theorem decodeConversation_setAttr_other (it : Item) (k : String) (v : AttrVal)
    (h1 : k ≠ "SK") (h2 : k ≠ "CreateTime") (h3 : k ≠ "Title") (h4 : k ≠ "MessageMap")
    (h5 : k ≠ "LastMessageId") (h6 : k ≠ "BotId") :
    decodeConversation (setAttr it k v) = decodeConversation it := by
  unfold decodeConversation
  rw [readS_setAttr_ne it k "SK" v (Ne.symm h1),
      readN_setAttr_ne it k "CreateTime" v (Ne.symm h2),
      readS_setAttr_ne it k "Title" v (Ne.symm h3),
      readMM_setAttr_ne it k "MessageMap" v (Ne.symm h4),
      readS_setAttr_ne it k "LastMessageId" v (Ne.symm h5),
      readOptS_setAttr_ne it k "BotId" v (Ne.symm h6)]

theorem decodeConversation_conv_put_item (u : String) (c : ConversationModel)
    (hdec : _decompose_conv_id (_compose_conv_id u c.id) = Except.ok c.id) :
    decodeConversation (conv_put_item u c) = Except.ok c := by
  have hstep : decodeConversation (conv_put_item u c)
      = Except.bind (_decompose_conv_id (_compose_conv_id u c.id)) (fun cid =>
          Except.bind (optSOfVal "BotId" (encodeBotId c.bot_id)) (fun botId =>
            Except.ok { id := cid, create_time := c.create_time, title := c.title,
                        message_map := c.message_map.map (fun kv => (kv.1, parseMessage kv.2)),
                        last_message_id := c.last_message_id, bot_id := botId })) := rfl
  rw [hstep, hdec, optSOfVal_encodeBotId]
  simp [Except.bind, parse_map_id]

theorem skIndexQuery_map_update (st : TableState) (pk sk attr : String) (v : AttrVal)
    (key : String) (hattr : attr ≠ "SK") :
    skIndexQuery (st.map (fun it => if isKeyB it pk sk then setAttr it attr v else it)) key
      = (skIndexQuery st key).map
          (fun it => if isKeyB it pk sk then setAttr it attr v else it) := by
  unfold skIndexQuery
  apply filter_map_pred_inv
  intro x
  by_cases hx : isKeyB x pk sk
  · simp [hx, getAttr_setAttr_ne x attr "SK" v (Ne.symm hattr)]
  · simp [hx]

theorem skIndexQuery_update_attr_head (st : TableState) (pk sk attr : String) (v : AttrVal)
    (key : String) (hattr : attr ≠ "SK") (item : Item)
    (hq : skIndexQuery st key = [item]) :
    (skIndexQuery (update_attr st pk sk attr v) key).head? = some item
      ∨ (skIndexQuery (update_attr st pk sk attr v) key).head?
          = some (setAttr item attr v) := by
  unfold update_attr
  by_cases hany : st.any (fun it => isKeyB it pk sk)
  · rw [if_pos hany, skIndexQuery_map_update st pk sk attr v key hattr, hq]
    by_cases hi : isKeyB item pk sk
    · right; simp [hi]
    · left; simp [hi]
  · rw [if_neg hany]
    left
    unfold skIndexQuery at hq ⊢
    rw [List.filter_append, hq]
    rfl

theorem skIndexQuery_update_attr_head_hit (st : TableState) (pk sk attr : String)
    (v : AttrVal) (key : String) (hattr : attr ≠ "SK") (item : Item)
    (hq : skIndexQuery st key = [item]) (hkey : isKeyB item pk sk = true) :
    (skIndexQuery (update_attr st pk sk attr v) key).head?
      = some (setAttr item attr v) := by
  have hmem : item ∈ st := by
    have hin : item ∈ skIndexQuery st key := by
      rw [hq]; exact List.mem_singleton_self item
    exact (List.mem_filter.1 hin).1
  have hany : st.any (fun it => isKeyB it pk sk) = true :=
    List.any_eq_true.2 ⟨item, hmem, hkey⟩
  unfold update_attr
  rw [if_pos hany, skIndexQuery_map_update st pk sk attr v key hattr, hq]
  simp [hkey]

theorem decodeConversation_setAttr_title (it : Item) (t : String) (r : ConversationModel)
    (h : decodeConversation it = Except.ok r) :
    decodeConversation (setAttr it "Title" (AttrVal.aS t))
      = Except.ok { r with title := t } := by
  unfold decodeConversation at h ⊢
  rw [readS_setAttr_ne it "Title" "SK" _ (by decide),
      readN_setAttr_ne it "Title" "CreateTime" _ (by decide),
      readMM_setAttr_ne it "Title" "MessageMap" _ (by decide),
      readS_setAttr_ne it "Title" "LastMessageId" _ (by decide),
      readOptS_setAttr_ne it "Title" "BotId" _ (by decide),
      show readS (setAttr it "Title" (AttrVal.aS t)) "Title" = Except.ok t from by
        simp [readS, getAttr_setAttr_self]]
  cases hsk : readS it "SK" with
  | error e => rw [hsk] at h; simp only [bind_err] at h; cases h
  | ok sk =>
  rw [hsk] at h
  simp only [bind_ok] at h ⊢
  cases hid : _decompose_conv_id sk with
  | error e => rw [hid] at h; simp only [bind_err] at h; cases h
  | ok cid =>
  rw [hid] at h
  simp only [bind_ok] at h ⊢
  cases hct : readN it "CreateTime" with
  | error e => rw [hct] at h; simp only [bind_err] at h; cases h
  | ok ct =>
  rw [hct] at h
  simp only [bind_ok] at h ⊢
  cases ht0 : readS it "Title" with
  | error e => rw [ht0] at h; simp only [bind_err] at h; cases h
  | ok t0 =>
  rw [ht0] at h
  simp only [bind_ok] at h ⊢
  cases hmm : readMM it "MessageMap" with
  | error e => rw [hmm] at h; simp only [bind_err] at h; cases h
  | ok mm =>
  rw [hmm] at h
  simp only [bind_ok] at h ⊢
  cases hlm : readS it "LastMessageId" with
  | error e => rw [hlm] at h; simp only [bind_err] at h; cases h
  | ok lm =>
  rw [hlm] at h
  simp only [bind_ok] at h ⊢
  cases hb : readOptS it "BotId" with
  | error e => rw [hb] at h; simp only [bind_err] at h; cases h
  | ok b =>
  rw [hb] at h
  simp only [bind_ok] at h ⊢
  injection h with h2
  subst h2
  rfl

theorem store_conversation_success (now : ℚ) (st : TableState) (u : String)
    (c : ConversationModel) :
    store_conversation (fun _ => false) now st u c
      = ((store_conversation_items now u c).foldl applyTransactOp st, none) := by
  unfold store_conversation store_conversation_calls runCalls transact_write_items
  simp [runCalls]

/-! Claim theorems. -/

/-- C1: `store_conversation` is atomic — the conversation upsert and the
bot-usage update are issued as one all-or-nothing `transact_write_items`
request, so when the store reports failure of either sub-operation the
final table state is the prior state: neither the ConversationRecord (sort
key `_compose_conv_id u c.id`) nor the BotUsageRecord (sort key
`_compose_bot_id u bot`) is modified. -/
theorem store_conversation_atomic (fails : TransactOp → Bool) (now : ℚ)
    (st : TableState) (u : String) (c : ConversationModel) (e : PyErr)
    (hfail : (store_conversation fails now st u c).2 = some e) :
    (store_conversation fails now st u c).1 = st
      ∧ skIndexQuery (store_conversation fails now st u c).1 (_compose_conv_id u c.id)
          = skIndexQuery st (_compose_conv_id u c.id)
      ∧ skIndexQuery (store_conversation fails now st u c).1
            (_compose_bot_id u (c.bot_id.getD ""))
          = skIndexQuery st (_compose_bot_id u (c.bot_id.getD "")) := by
  cases hw : transact_write_items fails st (store_conversation_items now u c) with
  | ok st2 =>
    exfalso
    have hnone : (store_conversation fails now st u c).2 = none := by
      simp [store_conversation, store_conversation_calls, runCalls, hw]
    rw [hnone] at hfail
    exact Option.noConfusion hfail
  | error e2 =>
    have h1 : store_conversation fails now st u c = (st, some e2) := by
      simp [store_conversation, store_conversation_calls, runCalls, hw]
    refine ⟨?_, ?_, ?_⟩ <;> rw [h1]

/-- C1 witness: against a store that rejects the bot-usage `Update`
sub-operation, storing a bot conversation over `demoSt0` reports the
failure and leaves both records (and the whole table) untouched. -/
theorem store_conversation_atomic_witness :
    (store_conversation demoFailUpdate 7 demoSt0 "u1" demoConvBot).1 = demoSt0
      ∧ skIndexQuery (store_conversation demoFailUpdate 7 demoSt0 "u1" demoConvBot).1
            (_compose_conv_id "u1" demoConvBot.id)
          = skIndexQuery demoSt0 (_compose_conv_id "u1" demoConvBot.id)
      ∧ skIndexQuery (store_conversation demoFailUpdate 7 demoSt0 "u1" demoConvBot).1
            (_compose_bot_id "u1" (demoConvBot.bot_id.getD ""))
          = skIndexQuery demoSt0 (_compose_bot_id "u1" (demoConvBot.bot_id.getD "")) :=
  store_conversation_atomic demoFailUpdate 7 demoSt0 "u1" demoConvBot
    PyErr.transactionCanceled (by decide)

/-- C2: `store_conversation` builds a single write request — one
`transact_write_items` call whose first element is the upsert (`Put`, full
replace) of the ConversationRecord keyed by
`(u, _compose_conv_id u c.id)` with the full record contents, and which
additionally contains the upsert of the BotUsageRecord keyed by
`(u, _compose_bot_id u bot)` setting `LastBotUsed` to the current time
exactly when `c.bot_id` is set (present and non-empty, the Python
truthiness of `conversation.bot_id`). -/
theorem store_conversation_single_request (now : ℚ) (u : String) (c : ConversationModel) :
    store_conversation_calls now u c
      = [StoreCall.transact
          ([TransactOp.put
              [("PK", AttrVal.aS u),
               ("SK", AttrVal.aS (_compose_conv_id u c.id)),
               ("Title", AttrVal.aS c.title),
               ("CreateTime", AttrVal.aN c.create_time),
               ("MessageMap", AttrVal.aM c.message_map),
               ("LastMessageId", AttrVal.aS c.last_message_id),
               ("BotId", encodeBotId c.bot_id)]]
            ++ (if pyTruthyOptStr c.bot_id then
                  [TransactOp.update u (_compose_bot_id u (c.bot_id.getD ""))
                    "set LastBotUsed = :current_time" now]
                else []))] := by
  cases hb : c.bot_id with
  | none =>
    simp [store_conversation_calls, store_conversation_items, conv_put_item,
      pyTruthyOptStr, hb]
  | some b =>
    cases hbe : b.isEmpty <;>
      simp [store_conversation_calls, store_conversation_items, conv_put_item,
        pyTruthyOptStr, hb, hbe]

/-- C6: when the secondary-index lookup finds zero matching items,
`find_conversation_by_id`, `delete_conversation_by_id` and
`change_conversation_title` all raise `RecordNotFoundError`; when exactly
one item matches (carrying a string `PK`, as every stored item does),
`delete_conversation_by_id` and `change_conversation_title` succeed,
returning the deleted/updated table. -/
theorem lookup_not_found_and_success (st : TableState) (u cid t : String) :
    (skIndexQuery st (_compose_conv_id u cid) = [] →
        find_conversation_by_id st u cid
            = Except.error (PyErr.recordNotFound ("No conversation found with id: " ++ cid))
          ∧ delete_conversation_by_id st u cid
            = Except.error (PyErr.recordNotFound ("No conversation found with id: " ++ cid))
          ∧ change_conversation_title st u cid t
            = Except.error (PyErr.recordNotFound ("No conversation found with id " ++ cid)))
      ∧ (∀ item pk, skIndexQuery st (_compose_conv_id u cid) = [item] →
          getAttr item "PK" = some (AttrVal.aS pk) →
            delete_conversation_by_id st u cid
                = Except.ok (delete_item st pk (_compose_conv_id pk cid))
              ∧ change_conversation_title st u cid t
                = Except.ok (update_attr st pk (_compose_conv_id pk cid) "Title"
                    (AttrVal.aS t))) := by
  constructor
  · intro hq
    refine ⟨?_, ?_, ?_⟩ <;>
      simp [find_conversation_by_id, delete_conversation_by_id,
        change_conversation_title, hq]
  · intro item pk hq hpk
    constructor <;>
      simp [delete_conversation_by_id, change_conversation_title, hq, readS, hpk,
        bind_ok]

/-- C6 witness: on the empty table the point lookup raises
`RecordNotFoundError`; on a one-item table the delete succeeds. -/
theorem lookup_not_found_and_success_witness :
    find_conversation_by_id [] "u1" "c1"
        = Except.error (PyErr.recordNotFound ("No conversation found with id: " ++ "c1"))
      ∧ delete_conversation_by_id demoStOne "u1" "c1"
          = Except.ok (delete_item demoStOne "u1" (_compose_conv_id "u1" "c1")) :=
  ⟨((lookup_not_found_and_success [] "u1" "c1" "t").1 rfl).1,
   ((lookup_not_found_and_success demoStOne "u1" "c1" "t").2 demoBareItem "u1"
      (by decide) rfl).1⟩

/-- C7: round-trip — for a valid conversation (its key composes and
decomposes cleanly, the codec contract of spec 4.1) stored into a table
holding no item with its sort key, `store_conversation` succeeds and
`find_conversation_by_id` returns a record equal to `c`, the message map
(parent/children links, roles, content, model, timestamps) included. -/
theorem store_find_round_trip (now : ℚ) (st : TableState) (u : String)
    (c : ConversationModel)
    (hdec : _decompose_conv_id (_compose_conv_id u c.id) = Except.ok c.id)
    (hfresh : ∀ jt ∈ st, getAttr jt "SK" ≠ some (AttrVal.aS (_compose_conv_id u c.id))) :
    ∃ st2, store_conversation (fun _ => false) now st u c = (st2, none)
      ∧ find_conversation_by_id st2 u c.id = Except.ok c := by
  refine ⟨(store_conversation_items now u c).foldl applyTransactOp st,
    store_conversation_success now st u c, ?_⟩
  have hput : skIndexQuery (putItem st (conv_put_item u c)) (_compose_conv_id u c.id)
      = [conv_put_item u c] :=
    skIndexQuery_putItem_fresh st (conv_put_item u c) _ rfl hfresh
  cases hb : c.bot_id with
  | none =>
    have hfold : (store_conversation_items now u c).foldl applyTransactOp st
        = putItem st (conv_put_item u c) := by
      simp [store_conversation_items, hb, applyTransactOp]
    rw [hfold]
    unfold find_conversation_by_id
    rw [hput]
    exact decodeConversation_conv_put_item u c hdec
  | some b =>
    cases hbe : b.isEmpty with
    | true =>
      have hfold : (store_conversation_items now u c).foldl applyTransactOp st
          = putItem st (conv_put_item u c) := by
        simp [store_conversation_items, hb, hbe, applyTransactOp]
      rw [hfold]
      unfold find_conversation_by_id
      rw [hput]
      exact decodeConversation_conv_put_item u c hdec
    | false =>
      have hfold : (store_conversation_items now u c).foldl applyTransactOp st
          = update_attr (putItem st (conv_put_item u c)) u (_compose_bot_id u b)
              "LastBotUsed" (AttrVal.aN now) := by
        simp [store_conversation_items, hb, hbe, applyTransactOp]
      rw [hfold]
      have hhead := skIndexQuery_update_attr_head (putItem st (conv_put_item u c)) u
          (_compose_bot_id u b) "LastBotUsed" (AttrVal.aN now) (_compose_conv_id u c.id)
          (by decide) (conv_put_item u c) hput
      unfold find_conversation_by_id
      cases hhead with
      | inl h1 =>
        rw [h1]
        exact decodeConversation_conv_put_item u c hdec
      | inr h2 =>
        rw [h2]
        show decodeConversation (setAttr (conv_put_item u c) "LastBotUsed" (AttrVal.aN now))
            = Except.ok c
        rw [decodeConversation_setAttr_other (conv_put_item u c) "LastBotUsed"
          (AttrVal.aN now) (by decide) (by decide) (by decide) (by decide) (by decide)
          (by decide)]
        exact decodeConversation_conv_put_item u c hdec

/-- C7 witness: storing the demo bot conversation with its three-message
tree (root, child, grandchild) into the empty table and reading it back by
id yields the identical record. -/
theorem store_find_round_trip_witness :
    ∃ st2, store_conversation (fun _ => false) 9 [] "u1" demoConvBot = (st2, none)
      ∧ find_conversation_by_id st2 "u1" demoConvBot.id = Except.ok demoConvBot :=
  store_find_round_trip 9 [] "u1" demoConvBot (by decide) (by simp)

/-- C8: renaming updates only the `Title` attribute — when the lookup
resolves the conversation to a single item owned by `u` and the old record
decodes to `r`, `change_conversation_title` succeeds and a subsequent
`find_conversation_by_id` returns `r` with `title` replaced and every other
field (`id`, `create_time`, `message_map`, `last_message_id`, `bot_id`)
unchanged. -/
theorem change_title_only_title (st : TableState) (u cid t : String)
    (item : Item) (r : ConversationModel)
    (hq : skIndexQuery st (_compose_conv_id u cid) = [item])
    (hpk : getAttr item "PK" = some (AttrVal.aS u))
    (hfind : find_conversation_by_id st u cid = Except.ok r) :
    ∃ st2, change_conversation_title st u cid t = Except.ok st2
      ∧ find_conversation_by_id st2 u cid = Except.ok { r with title := t } := by
  have hdecr : decodeConversation item = Except.ok r := by
    unfold find_conversation_by_id at hfind
    rw [hq] at hfind
    exact hfind
  have hsk : getAttr item "SK" = some (AttrVal.aS (_compose_conv_id u cid)) := by
    have hin : item ∈ skIndexQuery st (_compose_conv_id u cid) := by
      rw [hq]; exact List.mem_singleton_self item
    simpa using (List.mem_filter.1 hin).2
  have hkey : isKeyB item u (_compose_conv_id u cid) = true := by
    simp [isKeyB, hpk, hsk]
  refine ⟨update_attr st u (_compose_conv_id u cid) "Title" (AttrVal.aS t), ?_, ?_⟩
  · unfold change_conversation_title
    rw [hq]
    simp [readS, hpk, bind_ok]
  · have hhead := skIndexQuery_update_attr_head_hit st u (_compose_conv_id u cid) "Title"
      (AttrVal.aS t) (_compose_conv_id u cid) (by decide) item hq hkey
    unfold find_conversation_by_id
    rw [hhead]
    exact decodeConversation_setAttr_title item t r hdecr

/-- C8 witness: renaming the stored demo conversation to "New Title" and
reading it back yields the demo record with only the title changed. -/
theorem change_title_only_title_witness :
    ∃ st2, change_conversation_title demoStConv "u1" "c1" "New Title" = Except.ok st2
      ∧ find_conversation_by_id st2 "u1" "c1"
          = Except.ok { demoConv with title := "New Title" } :=
  change_title_only_title demoStConv "u1" "c1" "New Title"
    (conv_put_item "u1" demoConv) demoConv (by decide) (by decide) (by decide)

/-- C10: the listing requires every item of the fetched full-projection
(first) page to carry a non-empty serialized message map — when such an
item's `MessageMap` is the empty dict, `find_conversation_by_user_id`
raises an error (the representative model is taken by `popitem()` from the
deserialized map, which fails on an empty dict) instead of returning that
conversation's summary. -/
theorem listing_requires_nonempty_message_map (plan : List Nat) (st : TableState)
    (u : String) (item : Item)
    (hmem : item ∈ (chunkBy plan (convQueryFull st u)).headD [])
    (hmm : getAttr item "MessageMap" = some (AttrVal.aM [])) :
    ∃ e, find_conversation_by_user_id plan st u = Except.error e := by
  have hitem : ∃ e, decodeMetaFull item = Except.error e := by
    unfold decodeMetaFull
    cases hsk : readS item "SK" with
    | error e => exact ⟨e, rfl⟩
    | ok sk =>
      simp only [bind_ok]
      cases hid : _decompose_conv_id sk with
      | error e => exact ⟨e, rfl⟩
      | ok cid =>
        simp only [bind_ok]
        cases hct : readN item "CreateTime" with
        | error e => exact ⟨e, rfl⟩
        | ok ct =>
          simp only [bind_ok]
          cases ht : readS item "Title" with
          | error e => exact ⟨e, rfl⟩
          | ok t0 =>
            simp only [bind_ok]
            refine ⟨PyErr.keyError "popitem(): dictionary is empty", ?_⟩
            have hmm2 : readMM item "MessageMap" = Except.ok [] := by
              simp [readMM, hmm]
            rw [hmm2]
            rfl
  obtain ⟨e0, he0⟩ := mapExcept_error_of_mem decodeMetaFull
    ((chunkBy plan (convQueryFull st u)).headD []) item hmem hitem
  refine ⟨e0, ?_⟩
  have hshow : find_conversation_by_user_id plan st u
      = (mapExcept decodeMetaFull ((chunkBy plan (convQueryFull st u)).headD [])
          >>= fun conversations =>
            listLoop ((chunkBy plan (convQueryFull st u)).headD [])
              (chunkBy plan (convQueryFull st u)).tail 1 conversations) := rfl
  rw [hshow, he0]
  rfl

/-- C10 witness: a store whose only conversation has an empty message map
makes the listing raise. -/
theorem listing_requires_nonempty_message_map_witness :
    ∃ e, find_conversation_by_user_id [2] demoStEmptyMM "u1" = Except.error e :=
  listing_requires_nonempty_message_map [2] demoStEmptyMM "u1" demoEmptyMMItem
    (by decide) (by decide)

/-- C3: failing-input evaluation — with six store pages available (more
than `MAX_QUERY_COUNT = 5`), `find_conversation_by_user_id` does not return
the first pages' items with a warning: it raises `KeyError('BotId')` while
decoding the first continuation page, whose items the reduced projection
`SK, CreateTime, Title` stripped of `BotId`.  (Had decoding succeeded, the
loop would in fact accumulate six pages — the break fires only after the
sixth query.) -/
theorem listing_six_pages_keyerror :
    find_conversation_by_user_id [1, 1, 1, 1, 1] demoSt6 "u1"
      = Except.error (PyErr.keyError "BotId") := by decide

/-- C4: failing-input evaluation — on a two-page listing the continuation
page is fetched with only the reduced projection `SK, CreateTime, Title`,
and precisely because of that no continuation summary is ever produced: the
decode raises `KeyError('BotId')` on the projected item, so no summary
carrying the first page's representative model exists.  (The `model`
variable is also recomputed inside every loop iteration from the previous
response's first item — from the third page on that item lacks
`MessageMap` as well.) -/
theorem listing_continuation_projection_keyerror :
    find_conversation_by_user_id [3] demoSt6 "u1"
      = Except.error (PyErr.keyError "BotId") := by decide

/-- C5: failing-input evaluation — for a user whose data spans two store
pages the listing does not complete with a partial result: decoding the
continuation-page items fails with `KeyError('BotId')` because those pages
carry only the reduced projection. -/
theorem listing_two_pages_raises :
    find_conversation_by_user_id [5] demoSt6 "u1"
      = Except.error (PyErr.keyError "BotId") := by decide

/-- C9: failing-input evaluation — for a user whose conversations span more
pages than the cap covers, `delete_conversation_by_user_id` does not
perform an incomplete deletion over the capped listing: the listing itself
raises `KeyError('BotId')`, the error propagates, and no delete is issued
at all. -/
theorem delete_all_multipage_raises :
    delete_conversation_by_user_id [1, 1, 1, 1, 1] demoSt6 "u1"
      = Except.error (PyErr.keyError "BotId") := by decide

end ConvRepo
